import Mathlib

/-!
Verification of the adaptive data-routing core of the TradingAgents repository.

Shallow embedding of:
  * `tradingagents/dataflows/data_config_manager.py` (`DataConfigManager`),
  * `tradingagents/dataflows/unified_data_manager.py` (`UnifiedDataManager`),
  * `tradingagents/dataflows/smart_data_router.py` (`SmartDataRouter`).

Modelling conventions:
  * Python dicts with insertion order become association lists
    (`List (String × β)`); `dict.get(k, d)` becomes `(alistGet l k).getD d`,
    `dict[k] = v` becomes `assocSet` (update in place, append when new).
  * Python floats (latencies, scores) become `ℚ`; the code only adds,
    divides and compares them.
  * Provider adapters are external collaborators; they are a parameter
    (`Env.adapter`), returning `Except.error msg` when the Python adapter
    raises `msg` and `Except.ok text` when it returns `text`.
    Wall-clock measurements (`time.time()` differences) are likewise
    environment-supplied (`Env.latency`, `Env.elapsed`).
  * A Python function that may raise is embedded with result `Except String α`
    (`Except.error` = an uncaught exception escaping the function);
    a function that is total returns its value directly.
  * `config_manager._save_config()` writes are counted (`Nat`) where a claim
    speaks about persistence writes.
-/

/-- Values occurring in parameter dictionaries (`default_params`, call params). -/
inductive ParamValue where
  | str (s : String)
  | int (n : Int)
  | bool (b : Bool)
deriving DecidableEq

/-- A Python keyword-argument dictionary, in insertion order. -/
abbrev Params := List (String × ParamValue)

/-- Association-list read: `d.get(k)` / `k in d` on a Python dict. -/
def alistGet {β : Type} : List (String × β) → String → Option β
  | [], _ => none
  | e :: rest, k => if e.1 = k then some e.2 else alistGet rest k

/-- Association-list write: `d[k] = v` on a Python dict (updates the existing
key in place, otherwise appends, matching dict insertion order). -/
def assocSet {β : Type} (l : List (String × β)) (k : String) (v : β) : List (String × β) :=
  if l.any (fun e => e.1 = k) then
    l.map (fun e => if e.1 = k then (k, v) else e)
  else
    l ++ [(k, v)]

/-- Python `{**a, **b}`: keys of `a` in order (values overridden by `b`),
then the keys of `b` not in `a`, in `b`'s order. -/
def mergeParams (a b : Params) : Params :=
  a.map (fun e => match alistGet b e.1 with
    | some v => (e.1, v)
    | none => e) ++
  b.filter (fun e => !(a.any (fun e2 => e2.1 = e.1)))

/-- Rational division (`a / b`). Written via `Rat.divInt` rather than the
`Div ℚ` instance so that closed evaluations reduce (Batteries marks `Rat.div`
irreducible); for the nonzero divisors the code produces, this is the same
value. Python floats are idealized as exact rationals. -/
def ratDiv (a b : ℚ) : ℚ := Rat.divInt (a.num * b.den) (a.den * b.num)

/-- Rational addition (`a + b`), same convention as `ratDiv`. -/
def ratAdd (a b : ℚ) : ℚ := Rat.divInt (a.num * b.den + b.num * a.den) (a.den * b.den)

/-- Python `max(a, b)` on two numbers. -/
def ratMax (a b : ℚ) : ℚ := if a ≤ b then b else a

/-- Whitespace for Python `str.strip()` (the whitespace kinds occurring in
the texts the code handles). -/
def charIsSpace (c : Char) : Bool :=
  c = ' ' || c = '\t' || c = '\n' || c = '\r'

/-- Python `str.strip()` on the character list of a string. -/
def trimChars (l : List Char) : List Char :=
  ((l.dropWhile charIsSpace).reverse.dropWhile charIsSpace).reverse

/-- Whether `sub` is a prefix of `l` (character lists). -/
def prefixChars : List Char → List Char → Bool
  | [], _ => true
  | _ :: _, [] => false
  | a :: as, b :: bs => a = b && prefixChars as bs

/-- Whether `sub` occurs as a contiguous substring (character lists). -/
def containsChars (sub : List Char) : List Char → Bool
  | [] => sub.isEmpty
  | c :: rest => prefixChars sub (c :: rest) || containsChars sub rest

/-- Python `sub in s` substring test. -/
def strContains (s sub : String) : Bool :=
  containsChars sub.data s.data

/-- Python `s.split('\n')` on the character list of a string. -/
def splitLinesChars : List Char → List (List Char)
  | [] => [[]]
  | c :: rest =>
    if c = '\n' then [] :: splitLinesChars rest
    else
      match splitLinesChars rest with
      | [] => [[c]]
      | l :: ls => (c :: l) :: ls

/-- One entry of `config["platform_settings"]`; every key is optional because
the code reads each with `dict.get` and an explicit default. -/
structure PlatformSetting where
  enabled : Option Bool := none
  priority : Option Int := none
  default_params : Option Params := none
deriving DecidableEq

/-- One entry of `config["data_quality_rules"]`. -/
structure QualityRule where
  min_data_points : Option Nat := none
  required_fields : Option (List String) := none
deriving DecidableEq

/-- `config["cache_settings"]` (advisory only, carried for fidelity). -/
structure CacheSettings where
  enabled : Bool
  ttl_hours : Nat
deriving DecidableEq

/-- The configuration document managed by `DataConfigManager` (`self.config`). -/
structure Config where
  platform_preferences : List (String × List String)
  platform_settings : List (String × PlatformSetting)
  data_quality_rules : List (String × QualityRule)
  fallback_strategy : String
  cache_settings : CacheSettings
deriving DecidableEq

/-- `DataConfigManager._get_default_config()`. -/
def defaultConfig : Config where
  platform_preferences :=
    [("stock_data", ["akshare", "tushare"]),
     ("financial_data", ["akshare", "tushare", "simfin"]),
     ("financial_indicators", ["akshare", "tushare"]),
     ("news", ["akshare", "google", "finnhub"]),
     ("technical_indicators", ["stockstats", "myquant"]),
     ("market_data", ["akshare", "myquant"]),
     ("macro_data", ["akshare"]),
     ("sentiment", ["myquant"]),
     ("backtest", ["myquant"])]
  platform_settings :=
    [("akshare", { enabled := some true, priority := some 1,
                   default_params := some [("period", .str "daily"), ("adjust", .str "qfq")] }),
     ("tushare", { enabled := some true, priority := some 2, default_params := some [] }),
     ("myquant", { enabled := some true, priority := some 3,
                   default_params := some [("frequency", .str "1d")] }),
     ("finnhub", { enabled := some true, priority := some 4, default_params := some [] }),
     ("yfinance", { enabled := some true, priority := some 5, default_params := some [] }),
     ("google", { enabled := some true, priority := some 6, default_params := some [] }),
     ("reddit", { enabled := some true, priority := some 7,
                  default_params := some [("max_limit_per_day", .int 10)] }),
     ("simfin", { enabled := some true, priority := some 8,
                  default_params := some [("freq", .str "annual")] }),
     ("stockstats", { enabled := some true, priority := some 9,
                      default_params := some [("online", .bool false)] })]
  data_quality_rules :=
    [("stock_data", { min_data_points := some 10,
                      required_fields := some ["date", "open", "high", "low", "close", "volume"] }),
     ("financial_data", { min_data_points := some 1, required_fields := some ["period"] })]
  fallback_strategy := "next_available"
  cache_settings := { enabled := true, ttl_hours := 24 }

/-- `DataConfigManager.get_platform_settings` (empty dict for unknown platform). -/
def getPlatformSettingsS (settings : List (String × PlatformSetting)) (p : String) :
    PlatformSetting :=
  (alistGet settings p).getD {}

/-- `DataConfigManager.is_platform_enabled`, reading only `platform_settings`:
`settings.get("enabled", True)` — permissive default. -/
def isEnabledS (settings : List (String × PlatformSetting)) (p : String) : Bool :=
  (getPlatformSettingsS settings p).enabled.getD true

/-- `DataConfigManager.is_platform_enabled(platform)`. -/
def isPlatformEnabled (cfg : Config) (p : String) : Bool :=
  isEnabledS cfg.platform_settings p

/-- `DataConfigManager.get_platform_priority`, reading only `platform_settings`:
`settings.get("priority", 999)`. -/
def prioS (settings : List (String × PlatformSetting)) (p : String) : Int :=
  (getPlatformSettingsS settings p).priority.getD 999

/-- `DataConfigManager.get_platform_priority(platform)`. -/
def getPlatformPriority (cfg : Config) (p : String) : Int :=
  prioS cfg.platform_settings p

/-- `DataConfigManager.get_default_params(platform)`. -/
def getDefaultParams (cfg : Config) (p : String) : Params :=
  (getPlatformSettingsS cfg.platform_settings p).default_params.getD []

/-- `DataConfigManager.get_platform_preferences(data_type)`. -/
def getPlatformPreferences (cfg : Config) (dataType : String) : List String :=
  (alistGet cfg.platform_preferences dataType).getD []

/-- `DataConfigManager.get_enabled_platforms(data_type)` (data-type form):
the preference list filtered to enabled platforms, in configured order. -/
def getEnabledPlatforms (cfg : Config) (dataType : String) : List String :=
  (getPlatformPreferences cfg dataType).filter (fun p => isPlatformEnabled cfg p)

/-- `DataConfigManager.set_platform_preferences(data_type, platforms)`
(the synchronous `_save_config()` flush is counted by callers that care). -/
def setPlatformPreferences (cfg : Config) (dataType : String) (platforms : List String) :
    Config :=
  { cfg with platform_preferences := assocSet cfg.platform_preferences dataType platforms }

/-- `DataConfigManager.enable_platform(platform)`: only flips
`platform_settings[platform]["enabled"]` to `True`. -/
def enablePlatform (cfg : Config) (p : String) : Config :=
  let old : PlatformSetting := (alistGet cfg.platform_settings p).getD ⟨none, none, none⟩
  { cfg with platform_settings := assocSet cfg.platform_settings p { old with enabled := some true } }

/-- `DataConfigManager.disable_platform(platform)`. -/
def disablePlatform (cfg : Config) (p : String) : Config :=
  let old : PlatformSetting := (alistGet cfg.platform_settings p).getD ⟨none, none, none⟩
  { cfg with platform_settings := assocSet cfg.platform_settings p { old with enabled := some false } }

/-- The three legal fallback strategies (`valid_strategies` in the source). -/
def validFallbackStrategies : List String := ["next_available", "all_platforms", "fail"]

/-- `DataConfigManager.set_fallback_strategy(strategy)`.
The second component models the raised `ValueError` (the
`InvalidConfigurationError` of the spec's taxonomy): `some msg` means the
call raised before mutating, leaving the configuration untouched. -/
def setFallbackStrategy (cfg : Config) (strategy : String) : Config × Option String :=
  if strategy ∈ validFallbackStrategies then
    ({ cfg with fallback_strategy := strategy }, none)
  else
    (cfg, some ("无效的回退策略: " ++ strategy ++
      "，支持的策略: ['next_available', 'all_platforms', 'fail']"))

/-- `DataConfigManager.get_fallback_strategy()`. -/
def getFallbackStrategy (cfg : Config) : String :=
  cfg.fallback_strategy

/-- `UnifiedDataManager.platform_capabilities`: the fixed capability table
built at startup. The table's values are the provider adapter functions;
here only the supported data-type keys are recorded (the adapters themselves
are environment-supplied, see `Env.adapter`). -/
def platformCapabilities : List (String × List String) :=
  [("akshare", ["stock_data", "financial_data", "financial_indicators", "news",
                "market_data", "macro_data", "hot_stocks", "stock_info",
                "stock_comment", "industry_stocks"]),
   ("tushare", ["stock_data", "financial_data", "financial_indicators", "news",
                "index_data"]),
   ("myquant", ["stock_data", "financial_data", "technical_indicators", "market_data",
                "sentiment", "factor_data", "backtest", "portfolio_analysis"]),
   ("finnhub", ["news", "insider_sentiment", "insider_transactions"]),
   ("yfinance", ["stock_data", "stock_data_online"]),
   ("google", ["news"]),
   ("reddit", ["global_news", "company_news"]),
   ("simfin", ["balance_sheet", "cashflow", "income_statement"]),
   ("stockstats", ["technical_indicators", "single_indicator"])]

/-- The external world of one routing call: the provider adapters (returning
`Except.error msg` when the Python adapter raises) and the wall-clock
measurements the router takes. -/
structure Env where
  adapter : String → String → Params → Except String String
  latency : String → String → ℚ
  timestamp : String
  elapsed : ℚ

/-- Message built by `UnifiedDataManager.get_data` for a platform absent from
the capability table. -/
def unknownPlatformMessage (platform : String) : String :=
  "错误：不支持的平台 '" ++ platform ++ "'。支持的平台: " ++
    String.intercalate ", " (platformCapabilities.map Prod.fst)

/-- Message built by `UnifiedDataManager.get_data` for a supported platform
that does not support the requested data type. -/
def unknownCapabilityMessage (platform dataType : String) (caps : List String) : String :=
  "错误：平台 '" ++ platform ++ "' 不支持数据类型 '" ++ dataType ++ "'。支持的类型: " ++
    String.intercalate ", " caps

/-- `UnifiedDataManager.get_data(platform, data_type, **kwargs)` — the registry
dispatch operation. The `Except` layer records whether an exception escapes
the call; note every branch of the source returns a string (unknown platform,
unsupported data type and adapter exceptions are all converted to error
texts by the function itself), so every branch here is `Except.ok`. -/
def getData (env : Env) (platform dataType : String) (params : Params) :
    Except String String :=
  match alistGet platformCapabilities platform with
  | none => .ok (unknownPlatformMessage platform)
  | some caps =>
    if dataType ∈ caps then
      match env.adapter platform dataType params with
      | .ok r => .ok r
      | .error e => .ok ("错误：调用 " ++ platform ++ "." ++ dataType ++ " 失败: " ++ e)
    else
      .ok (unknownCapabilityMessage platform dataType caps)

/-- One entry of `SmartDataRouter.platform_performance`. The code stores the
derived `success_rate` and `avg_time` alongside the raw counters and keeps
them in sync in `_update_platform_performance`. -/
structure PlatformPerf where
  total_requests : Nat
  successful_requests : Nat
  total_time : ℚ
  success_rate : ℚ
  avg_time : ℚ
deriving DecidableEq

/-- The map `SmartDataRouter.platform_performance`. -/
abbrev PerfMap := List (String × PlatformPerf)

/-- The settings part of the configuration (what the router's ordering and
enabled checks read). -/
abbrev SettingsMap := List (String × PlatformSetting)

/-- The zero entry created when a platform is first seen
(`_update_platform_performance`, lines 218-225). -/
def perfInit : PlatformPerf := ⟨0, 0, 0, 0, 0⟩

/-- The neutral default used by `_sort_platforms_by_priority` for platforms
with no history: `{"success_rate": 0.5, "avg_time": 5.0}`. The source default
is a dict with only these two keys; the counter fields are never read on this
path and are set to 0 here. -/
def defaultPerfStat : PlatformPerf := ⟨0, 0, 0, mkRat 1 2, 5⟩

/-- Pure update of one performance entry
(`SmartDataRouter._update_platform_performance`, lines 227-237). -/
def updatePerfStat (st : PlatformPerf) (success : Bool) (responseTime : ℚ) : PlatformPerf :=
  let total := st.total_requests + 1
  let succ := if success then st.successful_requests + 1 else st.successful_requests
  let ttime := if success then ratAdd st.total_time responseTime else st.total_time
  { total_requests := total
    successful_requests := succ
    total_time := ttime
    success_rate := ratDiv (succ : ℚ) (total : ℚ)
    avg_time := if 0 < succ then ratDiv ttime (succ : ℚ) else st.avg_time }

/-- `SmartDataRouter._update_platform_performance(platform, success, response_time)`. -/
def updatePlatformPerformance (perf : PerfMap) (p : String) (success : Bool)
    (responseTime : ℚ) : PerfMap :=
  assocSet perf p (updatePerfStat ((alistGet perf p).getD perfInit) success responseTime)

/-- The sort key computed by `platform_score` inside
`_sort_platforms_by_priority`: `(priority, -performance_score)` with
`performance_score = success_rate / max(avg_time, 0.1)`. -/
def platformScore (perf : PerfMap) (settings : SettingsMap) (p : String) : Int × ℚ :=
  let priority := prioS settings p
  let st := (alistGet perf p).getD defaultPerfStat
  let performance_score := ratDiv st.success_rate (ratMax st.avg_time (mkRat 1 10))
  (priority, -performance_score)

/-- Lexicographic order on the sort keys; Python's `sorted` orders tuples
this way. -/
def keyPairLE (x y : Int × ℚ) : Prop :=
  x.1 < y.1 ∨ (x.1 = y.1 ∧ x.2 ≤ y.2)

instance (x y : Int × ℚ) : Decidable (keyPairLE x y) := by
  unfold keyPairLE; infer_instance

/-- The comparison `platform_score(a) <= platform_score(b)` used by the
stable sort in `_sort_platforms_by_priority`. -/
def platformLE (perf : PerfMap) (settings : SettingsMap) (a b : String) : Prop :=
  keyPairLE (platformScore perf settings a) (platformScore perf settings b)

instance (perf : PerfMap) (settings : SettingsMap) :
    DecidableRel (platformLE perf settings) := by
  unfold platformLE; infer_instance

/-- `SmartDataRouter._sort_platforms_by_priority(platforms)`; Python's
`sorted(platforms, key=platform_score)` is a stable ascending sort, which
for a total preorder is exactly `List.insertionSort`. -/
def sortPlatformsByPriority (perf : PerfMap) (settings : SettingsMap)
    (platforms : List String) : List String :=
  List.insertionSort (platformLE perf settings) platforms

/-- The hardcoded failure-indicator substrings of `_validate_data_quality`. -/
def errorIndicators : List String :=
  ["错误", "失败", "Error", "Failed", "未获取到", "No data"]

/-- `SmartDataRouter._validate_data_quality(data, data_type)`. -/
def validateDataQuality (cfg : Config) (data : String) (dataType : String) : Bool :=
  if data.data.isEmpty || (trimChars data.data).isEmpty then false
  else if errorIndicators.any (fun ind => strContains data ind) then false
  else
    let typeRules := (alistGet cfg.data_quality_rules dataType).getD ⟨none, none⟩
    let minDataPoints := typeRules.min_data_points.getD 1
    let dataLines := (splitLinesChars data.data).filter (fun line => !(trimChars line).isEmpty)
    if dataLines.length < minDataPoints then false
    else if (typeRules.required_fields.getD []).any (fun f => !(strContains data f)) then
      false
    else true

/-- One record of `SmartDataRouter.request_history`. -/
structure RequestRecord where
  timestamp : String
  data_type : String
  platforms_tried : List String
  success : Bool
  execution_time : ℚ
deriving DecidableEq

/-- `SmartDataRouter._record_request`: append, then truncate to the most
recent 500 entries when the buffer exceeds 1000 (`history[-500:]`). -/
def recordRequest (history : List RequestRecord) (rec : RequestRecord) :
    List RequestRecord :=
  let h := history ++ [rec]
  if h.length > 1000 then h.drop (h.length - 500) else h

/-- The metadata dict of a routing result; a field is `none` exactly when the
corresponding key is absent from the dict the source builds on that path. -/
structure RouteMetadata where
  data_type : String
  platform_used : Option String := none
  platforms_tried : List String
  errors : Option (List String) := none
  platform_time : Option ℚ := none
  quality_passed : Option Bool := none
  execution_time : Option ℚ := none
deriving DecidableEq

/-- The structured result returned by `route_data_request`. -/
structure RoutingResult where
  success : Bool
  error : Option String := none
  data : Option String := none
  metadata : RouteMetadata
deriving DecidableEq

/-- The router's mutable state: `request_history` and `platform_performance`. -/
structure RouterState where
  request_history : List RequestRecord
  platform_performance : PerfMap
deriving DecidableEq

/-- `SmartDataRouter._try_platforms` (lines 89-185): sequential attempt loop
with fallback. `tried`/`errs` are the `platforms_tried`/`errors` accumulators.
The `Except.error` branch embeds the `except` clause of the source; it is
reachable only if the dispatch call raises (which `getData` never does, see
`getData_ok`). -/
def tryPlatforms (env : Env) (cfg : Config) (dataType : String) (params : Params)
    (enableFallback qualityCheck : Bool) :
    List String → PerfMap → List String → List String → RoutingResult × PerfMap
  | [], perf, tried, errs =>
    ({ success := false
       error := some ("所有平台都无法获取 " ++ dataType ++ " 数据")
       data := none
       metadata := { data_type := dataType, platforms_tried := tried,
                     errors := some errs } }, perf)
  | p :: rest, perf, tried, errs =>
    if !(isPlatformEnabled cfg p) then
      tryPlatforms env cfg dataType params enableFallback qualityCheck rest perf tried errs
    else
      let tried' := tried ++ [p]
      let defaultParams := getDefaultParams cfg p
      let mergedParams := mergeParams defaultParams params
      let platformTime := env.latency p dataType
      match getData env p dataType mergedParams with
      | .error e =>
        let errMsg := "平台 " ++ p ++ " 获取数据失败: " ++ e
        let errs' := errs ++ [errMsg]
        let perf' := updatePlatformPerformance perf p false 0
        if !enableFallback then
          ({ success := false
             error := some errMsg
             data := none
             metadata := { data_type := dataType, platform_used := some p,
                           platforms_tried := tried', errors := some errs' } }, perf')
        else
          tryPlatforms env cfg dataType params enableFallback qualityCheck rest perf'
            tried' errs'
      | .ok data =>
        let perf' := updatePlatformPerformance perf p true platformTime
        if qualityCheck && !(validateDataQuality cfg data dataType) then
          let errMsg := "平台 " ++ p ++ " 返回的数据质量不符合要求"
          let errs' := errs ++ [errMsg]
          if !enableFallback then
            ({ success := false
               error := some errMsg
               data := some data
               metadata := { data_type := dataType, platform_used := some p,
                             platforms_tried := tried', errors := some errs',
                             platform_time := some platformTime } }, perf')
          else
            tryPlatforms env cfg dataType params enableFallback qualityCheck rest perf'
              tried' errs'
        else
          ({ success := true
             data := some data
             metadata := { data_type := dataType, platform_used := some p,
                           platforms_tried := tried', platform_time := some platformTime,
                           quality_passed := some qualityCheck } }, perf')

/-- `SmartDataRouter.route_data_request` (lines 23-73). Returns the structured
result and the router state after the call. Note the empty-candidates early
return records no history entry, matching the source. -/
def routeDataRequest (env : Env) (cfg : Config) (st : RouterState) (dataType : String)
    (params : Params) (preferredPlatforms : Option (List String))
    (enableFallback : Bool := true) (qualityCheck : Bool := true) :
    RoutingResult × RouterState :=
  let platforms := preferredPlatforms.getD (getEnabledPlatforms cfg dataType)
  if platforms.isEmpty then
    ({ success := false
       error := some ("没有可用的平台支持数据类型: " ++ dataType)
       data := none
       metadata := { data_type := dataType, platforms_tried := [],
                     execution_time := some env.elapsed } }, st)
  else
    let sorted := sortPlatformsByPriority st.platform_performance cfg.platform_settings
      platforms
    let out := tryPlatforms env cfg dataType params enableFallback qualityCheck sorted
      st.platform_performance [] []
    let result := out.1
    let hist := recordRequest st.request_history
      { timestamp := env.timestamp, data_type := dataType,
        platforms_tried := result.metadata.platforms_tried, success := result.success,
        execution_time := env.elapsed }
    ({ result with metadata := { result.metadata with execution_time := some env.elapsed } },
     { request_history := hist, platform_performance := out.2 })

/-- `SmartDataRouter.get_best_platform_for_data_type(data_type)`. -/
def getBestPlatformForDataType (perf : PerfMap) (cfg : Config) (dataType : String) :
    Option String :=
  let platforms := getEnabledPlatforms cfg dataType
  if platforms.isEmpty then none
  else (sortPlatformsByPriority perf cfg.platform_settings platforms).head?

/-- One request of `create_smart_pipeline`; every key is read with
`request.get(...)`, hence optional. -/
structure PipelineRequest where
  name : Option String := none
  data_type : Option String := none
  params : Params := []
  platforms : Option (List String) := none
  enable_fallback : Option Bool := none
  quality_check : Option Bool := none

/-- One value of the pipeline's result dict: a routed result, or the literal
error dict `{"success": False, "error": "缺少 data_type 参数", "data": None}`
built when a request carries no `data_type` (that dict has no metadata). -/
inductive PipelineEntry where
  | routed (result : RoutingResult)
  | missingDataType
deriving DecidableEq

/-- The `_pipeline_metadata` entry of `create_smart_pipeline`. -/
structure PipelineMetadata where
  total_tasks : Nat
  successful_tasks : Nat
  success_rate : ℚ
  total_execution_time : ℚ
deriving DecidableEq

/-- The task loop of `create_smart_pipeline` (lines 363-385); `i` is the
running index used for default task names. -/
def pipelineGo (env : Env) (cfg : Config) :
    Nat → RouterState → List PipelineRequest →
    List (String × PipelineEntry) × RouterState
  | _, st, [] => ([], st)
  | i, st, req :: rest =>
    let taskName := req.name.getD ("task_" ++ toString i)
    match req.data_type with
    | none =>
      let out := pipelineGo env cfg (i + 1) st rest
      ((taskName, .missingDataType) :: out.1, out.2)
    | some dt =>
      let r := routeDataRequest env cfg st dt req.params req.platforms
        (req.enable_fallback.getD true) (req.quality_check.getD true)
      let out := pipelineGo env cfg (i + 1) r.2 rest
      ((taskName, .routed r.1) :: out.1, out.2)

/-- `sum(1 for r in results.values() if r.get("success", False))`. -/
def successCount : List (String × PipelineEntry) → Nat
  | [] => 0
  | (_, .routed r) :: rest => (if r.success then 1 else 0) + successCount rest
  | (_, .missingDataType) :: rest => successCount rest

/-- `SmartDataRouter.create_smart_pipeline(pipeline_requests)`: executes the
tasks strictly in the given order, threading the router state, and appends
the pipeline-level metadata. -/
def createSmartPipeline (env : Env) (cfg : Config) (st : RouterState)
    (requests : List PipelineRequest) :
    List (String × PipelineEntry) × PipelineMetadata × RouterState :=
  let out := pipelineGo env cfg 0 st requests
  let succ := successCount out.1
  (out.1,
   { total_tasks := requests.length
     successful_tasks := succ
     success_rate := if requests.length = 0 then 0 else ratDiv (succ : ℚ) (requests.length : ℚ)
     total_execution_time := env.elapsed },
   out.2)

/-- The per-data-type body of `optimize_platform_preferences` (lines 329-342),
written as structural recursion over the snapshot of
`config["platform_preferences"].items()`; each iteration only rewrites its own
key, so the snapshot view is equivalent to the live dict view. The `Nat`
counts the `set_platform_preferences` calls, i.e. the synchronous
`_save_config()` persistence writes. -/
def optimizeLoop (perf : PerfMap) :
    List (String × List String) → Config → Config × Nat
  | [], cfg => (cfg, 0)
  | (dt, current) :: rest, cfg =>
    let available := current.filter (fun p => isPlatformEnabled cfg p)
    if available.length ≤ 1 then
      optimizeLoop perf rest cfg
    else
      let optimized := sortPlatformsByPriority perf cfg.platform_settings available
      if optimized = available then
        optimizeLoop perf rest cfg
      else
        let out := optimizeLoop perf rest (setPlatformPreferences cfg dt optimized)
        (out.1, out.2 + 1)

/-- `SmartDataRouter.optimize_platform_preferences()`: returns the updated
configuration and the number of persistence writes performed. -/
def optimizePlatformPreferences (perf : PerfMap) (cfg : Config) : Config × Nat :=
  optimizeLoop perf cfg.platform_preferences cfg

/-- The value `optimize_platform_preferences` leaves stored for one data type
whose snapshot list is `v` (derived, for stating its effect per entry). -/
def gPref (perf : PerfMap) (settings : SettingsMap) (v : List String) : List String :=
  if (v.filter (fun p => isEnabledS settings p)).length ≤ 1 then v
  else if sortPlatformsByPriority perf settings (v.filter (fun p => isEnabledS settings p)) =
      v.filter (fun p => isEnabledS settings p) then v
  else sortPlatformsByPriority perf settings (v.filter (fun p => isEnabledS settings p))

/-- Whether `optimize_platform_preferences` performs a persistence write for
an entry whose list is `v` (derived, mirrors the branches of the loop). -/
def prefWriteFlag (perf : PerfMap) (settings : SettingsMap) (v : List String) : Bool :=
  if (v.filter (fun p => isEnabledS settings p)).length ≤ 1 then false
  else decide (sortPlatformsByPriority perf settings (v.filter (fun p => isEnabledS settings p)) ≠
    v.filter (fun p => isEnabledS settings p))

/-- Number of writes over a preference-table snapshot (derived). -/
def countWrites (perf : PerfMap) (settings : SettingsMap) :
    List (String × List String) → Nat
  | [] => 0
  | e :: rest =>
    countWrites perf settings rest + (if prefWriteFlag perf settings e.2 then 1 else 0)

/-- The ordering of spec §4.3 step 2, written from the spec's words: stable
sort by the pair (static priority ascending, performance score descending),
performance score = success_rate / max(average_latency, ε) with ε = 0.1 and
the neutral no-history default of success rate 0.5 over 5 time units. -/
def specPerformanceScore (perf : PerfMap) (p : String) : ℚ :=
  let st := (alistGet perf p).getD defaultPerfStat
  ratDiv st.success_rate (ratMax st.avg_time (mkRat 1 10))

/-- Spec-level comparison: priority ascending first, then performance score
descending. -/
def specPlatformLE (perf : PerfMap) (settings : SettingsMap) (a b : String) : Prop :=
  prioS settings a < prioS settings b ∨
    (prioS settings a = prioS settings b ∧
      specPerformanceScore perf b ≤ specPerformanceScore perf a)

instance (perf : PerfMap) (settings : SettingsMap) :
    DecidableRel (specPlatformLE perf settings) := by
  unfold specPlatformLE; infer_instance

/-- A fresh router (`SmartDataRouter.__init__`). -/
def emptyRouterState : RouterState := ⟨[], []⟩

/-- Environment in which every provider adapter raises (message `"boom"`);
all timing measurements are 1. -/
def envAllRaise : Env :=
  { adapter := fun _ _ _ => .error "boom"
    latency := fun _ _ => 1
    timestamp := "t0"
    elapsed := 1 }

/-- Environment whose akshare adapter returns a text containing the failure
indicator `未获取到` (a successful Python return, no exception). -/
def envBadAkshare : Env :=
  { adapter := fun p dt _ =>
      if p = "akshare" && dt = "stock_data" then .ok "未获取到股票数据" else .error "unused"
    latency := fun _ _ => 1
    timestamp := "t0"
    elapsed := 1 }

/-- A well-formed 15-line stock report: header with the required fields of
the `stock_data` quality rule, then 14 data rows; contains none of the
failure indicators. -/
def goodStockReport : String :=
  "date open high low close volume\n" ++
  String.intercalate "\n"
    (List.replicate 14 "2024-01-02 10.0 11.0 9.0 10.5 10000")

/-- Environment for the fallback scenario: akshare (priority 1) returns a
text containing `未获取到`, tushare (priority 2) returns the 15-line report. -/
def envScenario : Env :=
  { adapter := fun p dt _ =>
      if p = "akshare" && dt = "stock_data" then .ok "未获取到股票数据"
      else if p = "tushare" && dt = "stock_data" then .ok goodStockReport
      else .error "unused"
    latency := fun _ _ => 1
    timestamp := "t0"
    elapsed := 1 }

instance {α β : Type} [DecidableEq α] [DecidableEq β] : DecidableEq (Except α β) :=
  fun a b =>
  match a, b with
  | .ok x, .ok y => if h : x = y then isTrue (by rw [h]) else isFalse (by simp [h])
  | .error x, .error y => if h : x = y then isTrue (by rw [h]) else isFalse (by simp [h])
  | .ok _, .error _ => isFalse (by simp)
  | .error _, .ok _ => isFalse (by simp)

/-- A configuration with two enabled platforms of equal priority 1 and two
data types: `dt1` is served by `p` alone, `dt2` by both. Used to observe how
performance feedback from one pipeline task reorders a later task. -/
def cfgTiedPriorities : Config where
  platform_preferences := [("dt1", ["p"]), ("dt2", ["p", "q"])]
  platform_settings :=
    [("p", { enabled := some true, priority := some 1, default_params := some [] }),
     ("q", { enabled := some true, priority := some 1, default_params := some [] })]
  data_quality_rules := []
  fallback_strategy := "next_available"
  cache_settings := { enabled := true, ttl_hours := 24 }

/-- The shared adapter of the two pipeline runs (its value is irrelevant:
`p`/`q` are not in the capability table, so dispatch returns an error text
that fails the quality gate, which is all these runs need). -/
def tiedAdapter : String → String → Params → Except String String :=
  fun _ _ _ => .ok "unused"

/-- First run: the `dt1` call (the earlier task) is fast. -/
def envTiedFast : Env :=
  { adapter := tiedAdapter
    latency := fun _ dt => if dt = "dt1" then mkRat 1 20 else 7
    timestamp := "t0"
    elapsed := 1 }

/-- Second run: identical except that the earlier task's call is slow. -/
def envTiedSlow : Env :=
  { adapter := tiedAdapter
    latency := fun _ dt => if dt = "dt1" then 100 else 7
    timestamp := "t0"
    elapsed := 1 }

/-- The two-task pipeline: `t1` requests `dt1`, then `t2` requests `dt2`. -/
def tiedTasks : List PipelineRequest :=
  [{ name := some "t1", data_type := some "dt1" },
   { name := some "t2", data_type := some "dt2" }]

/-- The `platforms_tried` (= candidate ordering, all attempts fail over) of a
named pipeline task. -/
def pipelineTriedOf (results : List (String × PipelineEntry)) (task : String) :
    List String :=
  match alistGet results task with
  | some (.routed r) => r.metadata.platforms_tried
  | _ => []

/-- A placeholder history record (content irrelevant to length claims). -/
def dummyRecord : RequestRecord := ⟨"", "", [], false, 0⟩

/-- Every recorded performance entry counts as many successes as attempts
(what the router actually maintains, since its dispatch layer never lets an
adapter exception reach the failure-recording branch). -/
def perfBalanced (m : PerfMap) : Prop :=
  ∀ e ∈ m, e.2.successful_requests = e.2.total_requests

instance (m : PerfMap) : Decidable (perfBalanced m) :=
  inferInstanceAs (Decidable (∀ e ∈ m, _ = _))

instance (perf : PerfMap) (settings : SettingsMap) :
    IsTotal String (platformLE perf settings) where
  total a b := by
    unfold platformLE keyPairLE
    rcases lt_trichotomy (platformScore perf settings a).1
      (platformScore perf settings b).1 with h | h | h
    · exact Or.inl (Or.inl h)
    · rcases le_total (platformScore perf settings a).2
        (platformScore perf settings b).2 with h2 | h2
      · exact Or.inl (Or.inr ⟨h, h2⟩)
      · exact Or.inr (Or.inr ⟨h.symm, h2⟩)
    · exact Or.inr (Or.inl h)

instance (perf : PerfMap) (settings : SettingsMap) :
    IsTrans String (platformLE perf settings) where
  trans a b c := by
    unfold platformLE keyPairLE
    rintro (h1 | ⟨h1, h1x⟩) (h2 | ⟨h2, h2x⟩)
    · exact Or.inl (lt_trans h1 h2)
    · exact Or.inl (by rw [← h2]; exact h1)
    · exact Or.inl (by rw [h1]; exact h2)
    · exact Or.inr ⟨h1.trans h2, h1x.trans h2x⟩

/-- A small configuration exercising the optimizer: three platforms in the
`d` preference list, `z` disabled, and `y` (priority 1) listed after `x`
(priority 2) so that the optimizer reorders and persists. -/
def cfgOptDemo : Config where
  platform_preferences := [("d", ["x", "y", "z"])]
  platform_settings :=
    [("x", { enabled := some true, priority := some 2, default_params := some [] }),
     ("y", { enabled := some true, priority := some 1, default_params := some [] }),
     ("z", { enabled := some false, priority := some 3, default_params := some [] })]
  data_quality_rules := []
  fallback_strategy := "next_available"
  cache_settings := { enabled := true, ttl_hours := 24 }

set_option maxRecDepth 16000

theorem getData_ok (env : Env) (p dt : String) (ps : Params) :
    ∃ s, getData env p dt ps = Except.ok s := by
  unfold getData
  cases alistGet platformCapabilities p with
  | none => exact ⟨_, rfl⟩
  | some caps =>
    by_cases h : dt ∈ caps
    · simp only [h, if_true]
      cases env.adapter p dt ps with
      | ok r => exact ⟨r, rfl⟩
      | error e => exact ⟨_, rfl⟩
    · simp only [h, if_false]
      exact ⟨_, rfl⟩

theorem recordRequest_length (h : List RequestRecord) (r : RequestRecord) :
    (recordRequest h r).length = if h.length + 1 > 1000 then 500 else h.length + 1 := by
  by_cases hc : 1000 < h.length + 1
  · simp [recordRequest, List.length_append, List.length_drop, hc]
    omega
  · simp [recordRequest, List.length_append, hc]

theorem recordRequest_iterate_length (n : Nat) (hn : n ≤ 1000) :
    ((fun hist => recordRequest hist dummyRecord)^[n] []).length = n := by
  induction n with
  | zero => simp
  | succ k ih =>
    rw [Function.iterate_succ_apply']
    rw [recordRequest_length, ih (by omega)]
    rw [if_neg (by omega)]

/-- C7: the request history never exceeds 1000 entries after an append; an
append onto a 1000-entry history truncates it to its most recent 500 entries
(`history[-500:]` = `drop 501` of the 1001-entry list); inserting 1001
records into an empty history leaves exactly 500. -/
theorem requestHistory_cap_and_truncation :
    (∀ (h : List RequestRecord) (r : RequestRecord), h.length ≤ 1000 →
      (recordRequest h r).length ≤ 1000 ∧
        (h.length = 1000 →
          recordRequest h r = (h ++ [r]).drop 501 ∧ (recordRequest h r).length = 500)) ∧
    ((fun hist => recordRequest hist dummyRecord)^[1001] []).length = 500 := by
  constructor
  · intro h r hle
    constructor
    · rw [recordRequest_length]; split <;> omega
    · intro h1000
      constructor
      · unfold recordRequest
        rw [if_pos (by simp [List.length_append, h1000])]
        norm_num [List.length_append, h1000]
      · rw [recordRequest_length, if_pos (by omega)]
  · rw [Function.iterate_succ_apply', recordRequest_length,
      recordRequest_iterate_length 1000 (by omega)]
    rw [if_pos (by omega)]

theorem requestHistory_cap_and_truncation_witness :
    (([] : List RequestRecord).length ≤ 1000) ∧
      (recordRequest [] dummyRecord).length ≤ 1000 :=
  ⟨by decide, (requestHistory_cap_and_truncation.1 [] dummyRecord (by decide)).1⟩

/-- C8: for every string outside the three defined strategies,
`set_fallback_strategy` raises (the `InvalidConfigurationError` of the spec's
taxonomy, a `ValueError` in the source) before mutating, so the configuration
— in particular the previously configured strategy — is returned unchanged. -/
theorem setFallbackStrategy_invalid (cfg : Config) (s : String)
    (h : s ∉ validFallbackStrategies) :
    setFallbackStrategy cfg s =
      (cfg, some ("无效的回退策略: " ++ s ++
        "，支持的策略: ['next_available', 'all_platforms', 'fail']")) := by
  simp [setFallbackStrategy, h]

theorem setFallbackStrategy_invalid_witness :
    setFallbackStrategy defaultConfig "bogus" =
      (defaultConfig, some ("无效的回退策略: " ++ "bogus" ++
        "，支持的策略: ['next_available', 'all_platforms', 'fail']")) :=
  setFallbackStrategy_invalid defaultConfig "bogus" (by decide)

/-- C4: the fallback scenario of spec §8, instantiated with the two real
platforms that have priorities 1 and 2 in the default configuration
(A = akshare, B = tushare; both support `stock_data` in the capability
table): akshare's adapter returns a text containing the failure indicator
`未获取到`, tushare's adapter returns a 15-line report satisfying
`min_data_points = 10` and the required fields, and
`route(data_type="stock_data", enable_fallback=true, quality_check=true)`
succeeds from tushare with `platforms_tried = [akshare, tushare]`. -/
theorem route_fallback_scenario :
    (routeDataRequest envScenario defaultConfig emptyRouterState "stock_data" []
        none true true).1.success = true ∧
    (routeDataRequest envScenario defaultConfig emptyRouterState "stock_data" []
        none true true).1.metadata.platform_used = some "tushare" ∧
    (routeDataRequest envScenario defaultConfig emptyRouterState "stock_data" []
        none true true).1.metadata.platforms_tried = ["akshare", "tushare"] := by
  decide

theorem alistGet_getD_balanced {m : PerfMap} (hb : perfBalanced m) (p : String) :
    ((alistGet m p).getD perfInit).successful_requests =
      ((alistGet m p).getD perfInit).total_requests := by
  induction m with
  | nil => simp [alistGet, perfInit]
  | cons e rest ih =>
    simp only [alistGet]
    by_cases he : e.1 = p
    · simp only [he, if_true, Option.getD_some]
      exact hb e (List.mem_cons_self e rest)
    · simp only [he, if_false]
      exact ih (fun x hx => hb x (List.mem_cons_of_mem e hx))

theorem updatePlatformPerformance_balanced {m : PerfMap} (hb : perfBalanced m)
    (p : String) (t : ℚ) : perfBalanced (updatePlatformPerformance m p true t) := by
  have hnew : (updatePerfStat ((alistGet m p).getD perfInit) true t).successful_requests =
      (updatePerfStat ((alistGet m p).getD perfInit) true t).total_requests := by
    simp [updatePerfStat, alistGet_getD_balanced hb p]
  intro e he
  unfold updatePlatformPerformance assocSet at he
  by_cases hany : m.any (fun x => decide (x.1 = p))
  · rw [if_pos hany] at he
    obtain ⟨x, hx, hxe⟩ := List.mem_map.mp he
    by_cases hxp : x.1 = p
    · rw [if_pos hxp] at hxe
      rw [← hxe]
      exact hnew
    · rw [if_neg hxp] at hxe
      rw [← hxe]
      exact hb x hx
  · rw [if_neg hany] at he
    rcases List.mem_append.mp he with hin | hone
    · exact hb e hin
    · rw [List.mem_singleton.mp hone]
      exact hnew

theorem tryPlatforms_balanced (env : Env) (cfg : Config) (dataType : String) (params : Params)
    (fb qc : Bool) :
    ∀ (platforms : List String) (perf : PerfMap) (tried errs : List String),
      perfBalanced perf →
      perfBalanced (tryPlatforms env cfg dataType params fb qc platforms perf tried errs).2 := by
  intro platforms
  induction platforms with
  | nil =>
    intro perf tried errs hb
    simpa only [tryPlatforms] using hb
  | cons p rest ih =>
    intro perf tried errs hb
    unfold tryPlatforms
    by_cases hen : isPlatformEnabled cfg p
    · simp only [hen, Bool.not_true, Bool.false_eq_true, if_false]
      obtain ⟨s, hs⟩ := getData_ok env p dataType
        (mergeParams (getDefaultParams cfg p) params)
      rw [hs]
      have hb' := updatePlatformPerformance_balanced hb p (env.latency p dataType)
      cases hq : (qc && !(validateDataQuality cfg s dataType)) with
      | true =>
        simp only [hq, if_true]
        cases hf : fb with
        | true =>
          simp only [hf, Bool.not_true, Bool.false_eq_true, if_false]
          rw [hf] at ih
          exact ih _ _ _ hb'
        | false =>
          simp only [hf, Bool.not_false, if_true]
          exact hb'
      | false =>
        simp only [hq, Bool.false_eq_true, if_false]
        exact hb'
    · simp only [hen, Bool.not_false, if_true]
      exact ih _ _ _ hb

/-- C1 (amended): route never observes an adapter exception — the dispatch
layer `UnifiedDataManager.get_data` catches it and returns an error text
(`getData_ok`) — so route's failure-recording branch is unreachable and every
performance update route performs records a successful attempt: balanced
counters (successes = attempts) are preserved by any call. -/
theorem route_perf_updates_always_successful (env : Env) (cfg : Config) (st : RouterState)
    (dataType : String) (params : Params) (pp : Option (List String)) (fb qc : Bool)
    (hb : perfBalanced st.platform_performance) :
    perfBalanced
      ((routeDataRequest env cfg st dataType params pp fb qc).2.platform_performance) := by
  unfold routeDataRequest
  by_cases hcand : (pp.getD (getEnabledPlatforms cfg dataType)).isEmpty
  · simp only [hcand, if_true]
    exact hb
  · simp only [hcand, Bool.false_eq_true, if_false]
    exact tryPlatforms_balanced env cfg dataType params fb qc _ _ [] [] hb

theorem route_perf_updates_always_successful_witness :
    perfBalanced
      ((routeDataRequest envAllRaise defaultConfig emptyRouterState "stock_data" []
        none true true).2.platform_performance) :=
  route_perf_updates_always_successful envAllRaise defaultConfig emptyRouterState
    "stock_data" [] none true true (by decide)

/-- C1 (counterexample): with every adapter raising, `route` returns a
structured failure (the exception is indeed never propagated), but the
performance entry of the attempted platform akshare records the attempt as a
success — `successful_requests = 1 = total_requests` with the latency counted
— because the dispatch layer converted the exception into an error text that
only the quality gate rejects. The claim's "failed attempt (success=false, no
latency counted)" is false here. -/
theorem route_adapterRaise_records_success :
    (routeDataRequest envAllRaise defaultConfig emptyRouterState "stock_data" []
        none true true).1.success = false ∧
    alistGet (routeDataRequest envAllRaise defaultConfig emptyRouterState "stock_data" []
        none true true).2.platform_performance "akshare" =
      some { total_requests := 1, successful_requests := 1, total_time := 1,
             success_rate := 1, avg_time := 1 } := by
  decide

/-- C2 (amended): the registry dispatch `get_data` does not raise for an
unknown platform or an unsupported data type; it returns normally with an
error text naming the unsupported platform (and listing supported ones) resp.
the unsupported data type (and the platform's supported types). -/
theorem getData_unknown_returns_error_text (env : Env) (p dt : String) (ps : Params) :
    (alistGet platformCapabilities p = none →
      getData env p dt ps = Except.ok (unknownPlatformMessage p)) ∧
    (∀ caps, alistGet platformCapabilities p = some caps → dt ∉ caps →
      getData env p dt ps = Except.ok (unknownCapabilityMessage p dt caps)) := by
  constructor
  · intro h
    unfold getData
    rw [h]
  · intro caps h hdt
    unfold getData
    rw [h]
    simp [hdt]

theorem getData_unknown_returns_error_text_witness :
    getData envAllRaise "foo" "stock_data" [] =
      Except.ok (unknownPlatformMessage "foo") :=
  (getData_unknown_returns_error_text envAllRaise "foo" "stock_data" []).1 (by decide)

/-- C2 (counterexample): dispatch on a platform absent from the capability
table does not fail — it returns `Except.ok` with an error text (first
conjunct); likewise for a present platform with an unsupported data type
(second conjunct: akshare does not support `backtest`). The claim's
"fails with UnknownPlatformError / UnknownCapabilityError" is false: no
exception escapes the call. -/
theorem getData_unknown_returns_ok :
    getData envAllRaise "nonexistent" "stock_data" [] =
      Except.ok (unknownPlatformMessage "nonexistent") ∧
    getData envAllRaise "akshare" "backtest" [] =
      Except.ok (unknownCapabilityMessage "akshare" "backtest"
        ((alistGet platformCapabilities "akshare").getD [])) := by
  decide

theorem tryPlatforms_used_characterization (env : Env) (cfg : Config) (dataType : String)
    (params : Params) (fb qc : Bool) :
    ∀ (platforms : List String) (perf : PerfMap) (tried errs : List String),
      ∃ extra,
        (tryPlatforms env cfg dataType params fb qc platforms perf tried
            errs).1.metadata.platforms_tried = tried ++ extra ∧
        ((tryPlatforms env cfg dataType params fb qc platforms perf tried
            errs).1.metadata.platform_used.isSome =
          ((tryPlatforms env cfg dataType params fb qc platforms perf tried
              errs).1.success || (!fb && !extra.isEmpty))) := by
  intro platforms
  induction platforms with
  | nil =>
    intro perf tried errs
    exact ⟨[], by simp [tryPlatforms]⟩
  | cons p rest ih =>
    intro perf tried errs
    unfold tryPlatforms
    by_cases hen : isPlatformEnabled cfg p
    · simp only [hen, Bool.not_true, Bool.false_eq_true, if_false]
      obtain ⟨s, hs⟩ := getData_ok env p dataType
        (mergeParams (getDefaultParams cfg p) params)
      rw [hs]
      cases hq : (qc && !(validateDataQuality cfg s dataType)) with
      | true =>
        simp only [hq, if_true]
        cases hf : fb with
        | true =>
          simp only [hf, Bool.not_true, Bool.false_eq_true, if_false]
          rw [hf] at ih
          obtain ⟨extra, h1, h2⟩ := ih _ (tried ++ [p]) (errs ++ ["平台 " ++ p ++ " 返回的数据质量不符合要求"])
          refine ⟨[p] ++ extra, ?_, ?_⟩
          · rw [h1, List.append_assoc]
          · rw [h2]
            simp
        | false =>
          simp only [hf, Bool.not_false, if_true]
          exact ⟨[p], by simp⟩
      | false =>
        simp only [hq, Bool.false_eq_true, if_false]
        exact ⟨[p], by simp⟩
    · simp only [hen, Bool.not_false, if_true]
      exact ih _ tried errs

/-- C3 (amended): in every result of `route`, `platform_used` is present iff
the result is a success, or the call failed with `enable_fallback = false`
after at least one platform was attempted (the source's early quality-failure
and exception returns carry `platform_used` on a failed result). -/
theorem route_platformUsed_characterization (env : Env) (cfg : Config) (st : RouterState)
    (dataType : String) (params : Params) (pp : Option (List String)) (fb qc : Bool) :
    (routeDataRequest env cfg st dataType params pp fb
        qc).1.metadata.platform_used.isSome =
      ((routeDataRequest env cfg st dataType params pp fb qc).1.success ||
        (!fb && !(routeDataRequest env cfg st dataType params pp fb
            qc).1.metadata.platforms_tried.isEmpty)) := by
  unfold routeDataRequest
  by_cases hcand : (pp.getD (getEnabledPlatforms cfg dataType)).isEmpty
  · simp [hcand]
  · simp only [hcand, Bool.false_eq_true, if_false]
    obtain ⟨extra, h1, h2⟩ := tryPlatforms_used_characterization env cfg dataType params fb qc
      (sortPlatformsByPriority st.platform_performance cfg.platform_settings
        (pp.getD (getEnabledPlatforms cfg dataType)))
      st.platform_performance [] []
    simpa [h1] using h2

/-- C3 (counterexample): with `enable_fallback = false` and `quality_check =
true`, a quality-failing akshare response gives a result whose `success` is
false while `platform_used` is present (`some "akshare"`), refuting
"`platform_used` is present iff `success` is true". -/
theorem route_platformUsed_without_success :
    (routeDataRequest envBadAkshare defaultConfig emptyRouterState "stock_data" []
        none false true).1.success = false ∧
    (routeDataRequest envBadAkshare defaultConfig emptyRouterState "stock_data" []
        none false true).1.metadata.platform_used = some "akshare" := by
  decide

theorem orderedInsert_congr {α : Type} {r s : α → α → Prop} [DecidableRel r] [DecidableRel s]
    (x : α) : ∀ (l : List α), (∀ b ∈ l, (r x b ↔ s x b)) →
      l.orderedInsert r x = l.orderedInsert s x := by
  intro l
  induction l with
  | nil => intro _; rfl
  | cons y ys ih =>
    intro h
    simp only [List.orderedInsert]
    by_cases hr : r x y
    · rw [if_pos hr, if_pos ((h y (by simp)).mp hr)]
    · rw [if_neg hr, if_neg (fun hs => hr ((h y (by simp)).mpr hs))]
      rw [ih (fun b hb => h b (by simp [hb]))]

theorem insertionSort_congr {α : Type} {r s : α → α → Prop} [DecidableRel r] [DecidableRel s] :
    ∀ (l : List α), (∀ a ∈ l, ∀ b ∈ l, (r a b ↔ s a b)) →
      l.insertionSort r = l.insertionSort s := by
  intro l
  induction l with
  | nil => intro _; rfl
  | cons x xs ih =>
    intro h
    simp only [List.insertionSort]
    rw [ih (fun a ha b hb => h a (by simp [ha]) b (by simp [hb]))]
    exact orderedInsert_congr x _
      (fun b hb => h x (by simp) b (by simp [(List.mem_insertionSort s).mp hb]))

/-- C5: with two enabled candidates P1 (priority 1) and P2 (priority 2) and
no performance history, `get_best_platform` returns P1; and in general the
candidate ordering is the stable sort by (static priority ascending,
performance score descending) with score = success_rate / max(average
latency, ε), ε = 0.1, and the neutral no-history default of success rate 0.5
over 5 time units (`specPlatformLE`, written from the spec's words). -/
theorem getBestPlatform_priority_and_ordering :
    (∀ (perf : PerfMap) (cfg : Config) (dt P1 P2 : String),
      (getEnabledPlatforms cfg dt = [P1, P2] ∨ getEnabledPlatforms cfg dt = [P2, P1]) →
      alistGet perf P1 = none →
      alistGet perf P2 = none →
      getPlatformPriority cfg P1 = 1 →
      getPlatformPriority cfg P2 = 2 →
      getBestPlatformForDataType perf cfg dt = some P1) ∧
    (∀ (perf : PerfMap) (settings : SettingsMap) (l : List String),
      sortPlatformsByPriority perf settings l =
        List.insertionSort (specPlatformLE perf settings) l) := by
  constructor
  · intro perf cfg dt P1 P2 h1 _ _ h2 h3
    have hlt : prioS cfg.platform_settings P1 < prioS cfg.platform_settings P2 := by
      rw [show prioS cfg.platform_settings P1 = getPlatformPriority cfg P1 from rfl, h2,
        show prioS cfg.platform_settings P2 = getPlatformPriority cfg P2 from rfl, h3]
      norm_num
    have hrel : platformLE perf cfg.platform_settings P1 P2 := by
      unfold platformLE keyPairLE platformScore
      exact Or.inl hlt
    rcases h1 with h1 | h1
    · unfold getBestPlatformForDataType
      rw [h1]
      simp only [List.isEmpty_cons, Bool.false_eq_true, if_false]
      unfold sortPlatformsByPriority
      simp only [List.insertionSort, List.orderedInsert]
      rw [if_pos hrel]
      rfl
    · have hnrel : ¬ platformLE perf cfg.platform_settings P2 P1 := by
        unfold platformLE keyPairLE platformScore
        rintro (h | ⟨h, _⟩)
        · exact absurd (lt_trans h hlt) (lt_irrefl _)
        · have h2eq : prioS cfg.platform_settings P2 = prioS cfg.platform_settings P1 := h
          rw [h2eq] at hlt
          exact absurd hlt (lt_irrefl _)
      unfold getBestPlatformForDataType
      rw [h1]
      simp only [List.isEmpty_cons, Bool.false_eq_true, if_false]
      unfold sortPlatformsByPriority
      simp only [List.insertionSort, List.orderedInsert]
      rw [if_neg hnrel]
      rfl
  · intro perf settings l
    unfold sortPlatformsByPriority
    apply insertionSort_congr
    intro a _ b _
    show platformLE perf settings a b ↔ specPlatformLE perf settings a b
    unfold platformLE keyPairLE platformScore specPlatformLE specPerformanceScore
    simp only [neg_le_neg_iff]

theorem getBestPlatform_priority_and_ordering_witness :
    getBestPlatformForDataType [] defaultConfig "stock_data" = some "akshare" :=
  getBestPlatform_priority_and_ordering.1 [] defaultConfig "stock_data" "akshare" "tushare"
    (Or.inl (by decide)) (by decide) (by decide) (by decide) (by decide)

theorem keyPairLE_refl (x : Int × ℚ) : keyPairLE x x :=
  Or.inr ⟨rfl, le_refl _⟩

theorem sortPlatforms_independent_of_perf (perf1 perf2 : PerfMap) (settings : SettingsMap)
    (l : List String)
    (hdist : ∀ a ∈ l, ∀ b ∈ l, a ≠ b → prioS settings a ≠ prioS settings b) :
    sortPlatformsByPriority perf1 settings l = sortPlatformsByPriority perf2 settings l := by
  unfold sortPlatformsByPriority
  apply insertionSort_congr
  intro a ha b hb
  by_cases hab : a = b
  · subst hab
    exact iff_of_true (keyPairLE_refl _) (keyPairLE_refl _)
  · have hne := hdist a ha b hb hab
    unfold platformLE keyPairLE platformScore
    constructor
    · rintro (h | ⟨h1, _⟩)
      · exact Or.inl h
      · exact absurd h1 hne
    · rintro (h | ⟨h1, _⟩)
      · exact Or.inl h
      · exact absurd h1 hne

theorem tryPlatforms_result_independent_of_perf (env : Env) (cfg : Config)
    (dataType : String) (params : Params) (fb qc : Bool) :
    ∀ (platforms : List String) (perf1 perf2 : PerfMap) (tried errs : List String),
      (tryPlatforms env cfg dataType params fb qc platforms perf1 tried errs).1 =
        (tryPlatforms env cfg dataType params fb qc platforms perf2 tried errs).1 := by
  intro platforms
  induction platforms with
  | nil => intro perf1 perf2 tried errs; rfl
  | cons p rest ih =>
    intro perf1 perf2 tried errs
    unfold tryPlatforms
    by_cases hen : isPlatformEnabled cfg p
    · simp only [hen, Bool.not_true, Bool.false_eq_true, if_false]
      obtain ⟨s, hs⟩ := getData_ok env p dataType
        (mergeParams (getDefaultParams cfg p) params)
      rw [hs]
      cases hq : (qc && !(validateDataQuality cfg s dataType)) with
      | true =>
        simp only [hq, if_true]
        cases hf : fb with
        | true =>
          simp only [hf, Bool.not_true, Bool.false_eq_true, if_false]
          rw [hf] at ih
          exact ih _ _ _ _
        | false => simp only [hf, Bool.not_false, if_true]
      | false => simp only [hq, Bool.false_eq_true, if_false]
    · simp only [hen, Bool.not_false, if_true]
      exact ih _ _ _ _

/-- C6 (amended): a task's routing decision is a function of the
configuration and the performance tracker at the time it runs; earlier task
outcomes mutate the tracker and can change it (see the counterexample). When
the task's enabled candidates have pairwise distinct static priorities, the
tracker cannot change the ordering, and the routing result is independent of
the router state two runs may disagree on. -/
theorem route_result_independent_for_distinct_priorities (env : Env) (cfg : Config)
    (s1 s2 : RouterState) (dataType : String) (params : Params) (fb qc : Bool)
    (hdist : ∀ a ∈ getEnabledPlatforms cfg dataType,
      ∀ b ∈ getEnabledPlatforms cfg dataType,
      a ≠ b → getPlatformPriority cfg a ≠ getPlatformPriority cfg b) :
    (routeDataRequest env cfg s1 dataType params none fb qc).1 =
      (routeDataRequest env cfg s2 dataType params none fb qc).1 := by
  unfold routeDataRequest
  by_cases hcand : (getEnabledPlatforms cfg dataType).isEmpty
  · simp [hcand]
  · simp only [Option.getD_none, hcand, Bool.false_eq_true, if_false]
    rw [sortPlatforms_independent_of_perf s1.platform_performance s2.platform_performance
      cfg.platform_settings (getEnabledPlatforms cfg dataType) hdist]
    rw [tryPlatforms_result_independent_of_perf env cfg dataType params fb qc
      (sortPlatformsByPriority s2.platform_performance cfg.platform_settings
        (getEnabledPlatforms cfg dataType))
      s1.platform_performance s2.platform_performance [] []]

theorem route_result_independent_for_distinct_priorities_witness :
    (routeDataRequest envScenario defaultConfig emptyRouterState "stock_data" []
        none true true).1 =
      (routeDataRequest envScenario defaultConfig
        ⟨[], [("tushare", ⟨3, 3, 3, 1, 1⟩)]⟩ "stock_data" [] none true true).1 :=
  route_result_independent_for_distinct_priorities envScenario defaultConfig
    emptyRouterState ⟨[], [("tushare", ⟨3, 3, 3, 1, 1⟩)]⟩ "stock_data" [] true true
    (by decide)

/-- C6 (counterexample): two pipeline runs over the same configuration and
the same task list, with adapters and all later-task latencies agreeing
(first three conjuncts), differing only in the earlier task's outcome (its
observed latency on data type `dt1`): the later task `t2` orders its
candidates `["p", "q"]` in one run and `["q", "p"]` in the other, because the
earlier task's performance update changes the score that breaks the priority
tie. This refutes "one task's outcome never affects another's routing
decision". -/
theorem pipeline_laterTask_ordering_depends_on_earlier_outcome :
    envTiedFast.adapter = envTiedSlow.adapter ∧
    envTiedFast.latency "p" "dt2" = envTiedSlow.latency "p" "dt2" ∧
    envTiedFast.latency "q" "dt2" = envTiedSlow.latency "q" "dt2" ∧
    pipelineTriedOf
      (createSmartPipeline envTiedFast cfgTiedPriorities emptyRouterState tiedTasks).1
      "t2" = ["p", "q"] ∧
    pipelineTriedOf
      (createSmartPipeline envTiedSlow cfgTiedPriorities emptyRouterState tiedTasks).1
      "t2" = ["q", "p"] :=
  ⟨rfl, by decide, by decide, by decide, by decide⟩

theorem sortPlatforms_idem (perf : PerfMap) (settings : SettingsMap) (l : List String) :
    sortPlatformsByPriority perf settings (sortPlatformsByPriority perf settings l) =
      sortPlatformsByPriority perf settings l :=
  (List.sorted_insertionSort (platformLE perf settings) l).insertionSort_eq

theorem mem_sortPlatforms (perf : PerfMap) (settings : SettingsMap) {l : List String}
    {a : String} : a ∈ sortPlatformsByPriority perf settings l ↔ a ∈ l :=
  List.mem_insertionSort (platformLE perf settings)

theorem length_sortPlatforms (perf : PerfMap) (settings : SettingsMap) (l : List String) :
    (sortPlatformsByPriority perf settings l).length = l.length :=
  List.length_insertionSort (platformLE perf settings) l

theorem filter_sortPlatforms_filter (perf : PerfMap) (settings : SettingsMap)
    (v : List String) :
    (sortPlatformsByPriority perf settings
        (v.filter (fun p => isEnabledS settings p))).filter
        (fun p => isEnabledS settings p) =
      sortPlatformsByPriority perf settings (v.filter (fun p => isEnabledS settings p)) :=
  List.filter_eq_self.mpr (fun _ ha =>
    List.of_mem_filter ((mem_sortPlatforms perf settings).mp ha))

theorem gPref_of_flag {perf : PerfMap} {settings : SettingsMap} {v : List String}
    (hw : prefWriteFlag perf settings v = true) :
    gPref perf settings v =
      sortPlatformsByPriority perf settings (v.filter (fun p => isEnabledS settings p)) := by
  unfold prefWriteFlag at hw
  unfold gPref
  by_cases hlen : (v.filter (fun p => isEnabledS settings p)).length ≤ 1
  · rw [if_pos hlen] at hw
    exact absurd hw (by simp)
  · rw [if_neg hlen] at hw ⊢
    have hne := of_decide_eq_true hw
    rw [if_neg hne]

theorem gPref_idem_and_flag (perf : PerfMap) (settings : SettingsMap) (v : List String) :
    gPref perf settings (gPref perf settings v) = gPref perf settings v ∧
      prefWriteFlag perf settings (gPref perf settings v) = false := by
  by_cases hlen : (v.filter (fun p => isEnabledS settings p)).length ≤ 1
  · have hg : gPref perf settings v = v := by unfold gPref; rw [if_pos hlen]
    have hf : prefWriteFlag perf settings v = false := by
      unfold prefWriteFlag; rw [if_pos hlen]
    exact ⟨by rw [hg, hg], by rw [hg, hf]⟩
  · by_cases heq : sortPlatformsByPriority perf settings
        (v.filter (fun p => isEnabledS settings p)) =
        v.filter (fun p => isEnabledS settings p)
    · have hg : gPref perf settings v = v := by
        unfold gPref; rw [if_neg hlen, if_pos heq]
      have hf : prefWriteFlag perf settings v = false := by
        unfold prefWriteFlag; rw [if_neg hlen]
        simp [heq]
      exact ⟨by rw [hg, hg], by rw [hg, hf]⟩
    · have hg : gPref perf settings v =
          sortPlatformsByPriority perf settings
            (v.filter (fun p => isEnabledS settings p)) := by
        unfold gPref; rw [if_neg hlen, if_neg heq]
      have hfiltered : (gPref perf settings v).filter (fun p => isEnabledS settings p) =
          gPref perf settings v := by
        rw [hg]; exact filter_sortPlatforms_filter perf settings v
      have hlen2 : ¬((gPref perf settings v).filter
          (fun p => isEnabledS settings p)).length ≤ 1 := by
        rw [hfiltered, hg, length_sortPlatforms]
        exact hlen
      have hsorted : sortPlatformsByPriority perf settings
          ((gPref perf settings v).filter (fun p => isEnabledS settings p)) =
          (gPref perf settings v).filter (fun p => isEnabledS settings p) := by
        rw [hfiltered, hg, sortPlatforms_idem]
      set w := gPref perf settings v with hwdef
      constructor
      · unfold gPref
        rw [if_neg hlen2, if_pos hsorted]
      · unfold prefWriteFlag
        rw [if_neg hlen2]
        simp [hsorted]

theorem map_subst_id {β : Type} (dt : String) (w : β) :
    ∀ (l : List (String × β)), (∀ e ∈ l, e.1 ≠ dt) →
      l.map (fun e => if e.1 = dt then (dt, w) else e) = l := by
  intro l
  induction l with
  | nil => intro _; rfl
  | cons e rest ih =>
    intro h
    simp only [List.map_cons]
    rw [if_neg (h e (by simp)), ih (fun x hx => h x (by simp [hx]))]

theorem assocSet_middle {β : Type} (pre rest : List (String × β)) (dt : String) (v w : β)
    (hpre : ∀ e ∈ pre, e.1 ≠ dt) (hrest : ∀ e ∈ rest, e.1 ≠ dt) :
    assocSet (pre ++ (dt, v) :: rest) dt w = pre ++ (dt, w) :: rest := by
  unfold assocSet
  rw [if_pos]
  · rw [List.map_append, List.map_cons]
    rw [map_subst_id dt w pre hpre, map_subst_id dt w rest hrest]
    simp
  · refine List.any_eq_true.mpr ⟨(dt, v), ?_, by simp⟩
    simp

theorem nodup_keys_middle {β : Type} {pre rest : List (String × β)} {dt : String} {v : β}
    (h : ((pre ++ (dt, v) :: rest).map Prod.fst).Nodup) :
    (∀ e ∈ pre, e.1 ≠ dt) ∧ (∀ e ∈ rest, e.1 ≠ dt) := by
  rw [List.map_append, List.map_cons, List.nodup_append] at h
  obtain ⟨h1, h2, hdisj⟩ := h
  rw [List.nodup_cons] at h2
  constructor
  · intro e he heq
    exact hdisj (List.mem_map_of_mem Prod.fst he) (by simp [heq])
  · intro e he heq
    exact h2.1 (by simpa [heq] using List.mem_map_of_mem Prod.fst he)

theorem optimizeLoop_eq (perf : PerfMap) :
    ∀ (l pre : List (String × List String)) (cfg : Config),
      cfg.platform_preferences = pre ++ l →
      ((pre ++ l).map Prod.fst).Nodup →
      optimizeLoop perf l cfg =
        ({ cfg with platform_preferences :=
            pre ++ l.map (fun e => (e.1, gPref perf cfg.platform_settings e.2)) },
         countWrites perf cfg.platform_settings l) := by
  intro l
  induction l with
  | nil =>
    intro pre cfg hpref _
    rw [List.append_nil] at hpref
    simp only [optimizeLoop, List.map_nil, List.append_nil, countWrites, ← hpref]
  | cons e rest ih =>
    obtain ⟨dt, v⟩ := e
    intro pre cfg hpref hnd
    unfold optimizeLoop
    simp only [isPlatformEnabled]
    by_cases hlen : (v.filter (fun p => isEnabledS cfg.platform_settings p)).length ≤ 1
    · rw [if_pos hlen]
      have hg : gPref perf cfg.platform_settings v = v := by
        unfold gPref; rw [if_pos hlen]
      have hf : prefWriteFlag perf cfg.platform_settings v = false := by
        unfold prefWriteFlag; rw [if_pos hlen]
      rw [ih (pre ++ [(dt, v)]) cfg (by rw [hpref, List.append_assoc]; rfl)
        (by rw [List.append_assoc]; exact hnd)]
      simp only [List.map_cons, countWrites, hf, hg]
      rw [List.append_assoc]
      rfl
    · rw [if_neg hlen]
      by_cases heq : sortPlatformsByPriority perf cfg.platform_settings
          (v.filter (fun p => isEnabledS cfg.platform_settings p)) =
          v.filter (fun p => isEnabledS cfg.platform_settings p)
      · rw [if_pos heq]
        have hg : gPref perf cfg.platform_settings v = v := by
          unfold gPref; rw [if_neg hlen, if_pos heq]
        have hf : prefWriteFlag perf cfg.platform_settings v = false := by
          unfold prefWriteFlag; rw [if_neg hlen]; simp [heq]
        rw [ih (pre ++ [(dt, v)]) cfg (by rw [hpref, List.append_assoc]; rfl)
          (by rw [List.append_assoc]; exact hnd)]
        simp only [List.map_cons, countWrites, hf, hg]
        rw [List.append_assoc]
        rfl
      · rw [if_neg heq]
        have hg : gPref perf cfg.platform_settings v =
            sortPlatformsByPriority perf cfg.platform_settings
              (v.filter (fun p => isEnabledS cfg.platform_settings p)) := by
          unfold gPref; rw [if_neg hlen, if_neg heq]
        have hf : prefWriteFlag perf cfg.platform_settings v = true := by
          unfold prefWriteFlag; rw [if_neg hlen]; simp [heq]
        have hkeys := nodup_keys_middle hnd
        have hset : (setPlatformPreferences cfg dt
            (sortPlatformsByPriority perf cfg.platform_settings
              (v.filter (fun p => isEnabledS cfg.platform_settings p)))).platform_preferences =
            (pre ++ [(dt, sortPlatformsByPriority perf cfg.platform_settings
              (v.filter (fun p => isEnabledS cfg.platform_settings p)))]) ++ rest := by
          unfold setPlatformPreferences
          show assocSet cfg.platform_preferences dt _ = _
          rw [hpref, assocSet_middle pre rest dt v _ hkeys.1 hkeys.2, List.append_assoc]
          rfl
        rw [ih (pre ++ [(dt, sortPlatformsByPriority perf cfg.platform_settings
            (v.filter (fun p => isEnabledS cfg.platform_settings p)))])
          (setPlatformPreferences cfg dt
            (sortPlatformsByPriority perf cfg.platform_settings
              (v.filter (fun p => isEnabledS cfg.platform_settings p))))
          hset
          (by
            rw [List.append_assoc]
            simp only [List.map_append, List.map_cons, List.map_nil]
            simpa only [List.map_append, List.map_cons] using hnd)]
        simp only [setPlatformPreferences, List.map_cons, countWrites, hf, hg]
        rw [List.append_assoc]
        rfl

theorem keys_map_gPref (perf : PerfMap) (settings : SettingsMap) :
    ∀ (l : List (String × List String)),
      (l.map (fun e => (e.1, gPref perf settings e.2))).map Prod.fst = l.map Prod.fst := by
  intro l
  induction l with
  | nil => rfl
  | cons e rest ih => simp only [List.map_cons, ih]

theorem countWrites_map_gPref (perf : PerfMap) (settings : SettingsMap) :
    ∀ (l : List (String × List String)),
      countWrites perf settings (l.map (fun e => (e.1, gPref perf settings e.2))) = 0 := by
  intro l
  induction l with
  | nil => rfl
  | cons e rest ih =>
    simp only [List.map_cons, countWrites, ih, (gPref_idem_and_flag perf settings e.2).2]
    rfl

theorem map_gPref_idem (perf : PerfMap) (settings : SettingsMap) :
    ∀ (l : List (String × List String)),
      (l.map (fun e => (e.1, gPref perf settings e.2))).map
          (fun e => (e.1, gPref perf settings e.2)) =
        l.map (fun e => (e.1, gPref perf settings e.2)) := by
  intro l
  induction l with
  | nil => rfl
  | cons e rest ih =>
    simp only [List.map_cons, ih, (gPref_idem_and_flag perf settings e.2).1]

/-- C9: `optimize_preferences` is idempotent: with unchanged performance
statistics and configuration, a second consecutive call returns the same
configuration (identical preference lists for every data type) and performs
zero persistence writes (the second component counts the
`set_platform_preferences`/`_save_config` calls). The hypothesis is the dict
invariant that preference-table keys are unique. -/
theorem optimizePreferences_idempotent (perf : PerfMap) (cfg : Config)
    (hnd : (cfg.platform_preferences.map Prod.fst).Nodup) :
    optimizePlatformPreferences perf (optimizePlatformPreferences perf cfg).1 =
      ((optimizePlatformPreferences perf cfg).1, 0) := by
  unfold optimizePlatformPreferences
  rw [optimizeLoop_eq perf cfg.platform_preferences [] cfg (by simp)
    (by simpa using hnd)]
  rw [optimizeLoop_eq perf _ [] _ (by simp) (by
    simp only [List.nil_append]
    show ((cfg.platform_preferences.map
      (fun e => (e.1, gPref perf cfg.platform_settings e.2))).map Prod.fst).Nodup
    rw [keys_map_gPref]
    exact hnd)]
  simp only [List.nil_append]
  rw [map_gPref_idem, countWrites_map_gPref]

theorem optimizePreferences_idempotent_witness :
    optimizePlatformPreferences [] (optimizePlatformPreferences [] cfgOptDemo).1 =
      ((optimizePlatformPreferences [] cfgOptDemo).1, 0) :=
  optimizePreferences_idempotent [] cfgOptDemo (by decide)

theorem alistGet_map_gPref (perf : PerfMap) (settings : SettingsMap) :
    ∀ (l : List (String × List String)) (dt : String) (v : List String),
      (l.map Prod.fst).Nodup → (dt, v) ∈ l →
      alistGet (l.map (fun e => (e.1, gPref perf settings e.2))) dt =
        some (gPref perf settings v) := by
  intro l
  induction l with
  | nil => intro dt v _ hmem; cases hmem
  | cons e rest ih =>
    intro dt v hnd hmem
    rw [List.map_cons, List.nodup_cons] at hnd
    simp only [List.map_cons, alistGet]
    by_cases hdt : e.1 = dt
    · rw [if_pos hdt]
      rcases List.mem_cons.mp hmem with hhead | htail
      · rw [← hhead]
      · exact absurd (by simpa [hdt] using List.mem_map_of_mem Prod.fst htail) hnd.1
    · rw [if_neg hdt]
      rcases List.mem_cons.mp hmem with hhead | htail
      · exact absurd (by rw [← hhead]) hdt
      · exact ih dt v hnd.2 htail

/-- C10: whenever `optimize_preferences` rewrites a data type's preference
list (write flag true), the persisted list is exactly the enabled-filtered
snapshot reordered by the comparator — so a platform that is disabled at call
time is dropped from the stored list — and re-enabling a platform later
(`enable_platform`) does not touch any preference list, so the dropped entry
is not restored. -/
theorem optimizePreferences_drops_disabled (perf : PerfMap) (cfg : Config)
    (dt : String) (v : List String) (p q : String)
    (hnd : (cfg.platform_preferences.map Prod.fst).Nodup)
    (hmem : (dt, v) ∈ cfg.platform_preferences)
    (hw : prefWriteFlag perf cfg.platform_settings v = true)
    (hp : isPlatformEnabled cfg p = false) :
    alistGet (optimizePlatformPreferences perf cfg).1.platform_preferences dt =
      some (sortPlatformsByPriority perf cfg.platform_settings
        (v.filter (fun x => isEnabledS cfg.platform_settings x))) ∧
    p ∉ sortPlatformsByPriority perf cfg.platform_settings
        (v.filter (fun x => isEnabledS cfg.platform_settings x)) ∧
    (enablePlatform (optimizePlatformPreferences perf cfg).1 q).platform_preferences =
      (optimizePlatformPreferences perf cfg).1.platform_preferences := by
  refine ⟨?_, ?_, ?_⟩
  · unfold optimizePlatformPreferences
    rw [optimizeLoop_eq perf cfg.platform_preferences [] cfg (by simp) (by simpa using hnd)]
    simp only [List.nil_append]
    rw [alistGet_map_gPref perf cfg.platform_settings cfg.platform_preferences dt v hnd hmem]
    rw [gPref_of_flag hw]
  · intro hmemp
    have := List.of_mem_filter ((mem_sortPlatforms perf cfg.platform_settings).mp hmemp)
    rw [show isEnabledS cfg.platform_settings p = isPlatformEnabled cfg p from rfl, hp]
      at this
    cases this
  · rfl

theorem optimizePreferences_drops_disabled_witness :
    alistGet (optimizePlatformPreferences [] cfgOptDemo).1.platform_preferences "d" =
      some (sortPlatformsByPriority [] cfgOptDemo.platform_settings
        ((["x", "y", "z"]).filter (fun x => isEnabledS cfgOptDemo.platform_settings x))) ∧
    "z" ∉ sortPlatformsByPriority [] cfgOptDemo.platform_settings
        ((["x", "y", "z"]).filter (fun x => isEnabledS cfgOptDemo.platform_settings x)) ∧
    (enablePlatform (optimizePlatformPreferences [] cfgOptDemo).1 "z").platform_preferences =
      (optimizePlatformPreferences [] cfgOptDemo).1.platform_preferences :=
  optimizePreferences_drops_disabled [] cfgOptDemo "d" ["x", "y", "z"] "z" "z"
    (by decide) (by decide) (by decide) (by decide)
